import Mathlib

/-!
Shallow embedding of the telemedicine AI receptionist core: the input
sanitizers, the per-call session store, the booking dialogue step handlers
of services/booking_handler.py, the numeric menu dispatch of
services/intent_handler.py, the guest validation of
agents/receptionist_agent.py, and the availability check of
services/calendly.py. External collaborators (speech platform, HTTP
scheduling API, SMS client, pydantic EmailStr) are passed in as explicit
parameters; everything taken from the repository source is translated
statement by statement.
-/

namespace TelemedAI

/-! Python-style string primitives used by the sanitizers. -/

/-- Whitespace characters removed by the Python str.strip method. -/
def isPyWs (c : Char) : Bool :=
  c = ' ' || c = '\t' || c = '\n' || c = '\r' || c = '\x0b' || c = '\x0c'

/-- Remove leading and trailing Python whitespace from a character list. -/
def stripList (l : List Char) : List Char :=
  ((l.dropWhile isPyWs).reverse.dropWhile isPyWs).reverse

/-- Python str.strip on strings. -/
def pyStrip (s : String) : String := ⟨stripList s.data⟩

/-- The five characters removed by the sanitizers of booking_handler.py,
messaging.py, calendly.py and receptionist_agent.py. -/
def isBanned (c : Char) : Bool :=
  c = '<' || c = '>' || c = ';' || c = '\x7b' || c = '\x7d'

/-- Delete every banned character, mirroring the re.sub removal. -/
def removeDangerous (s : String) : String :=
  ⟨s.data.filter (fun c => !(isBanned c))⟩

/-- Python str.lower restricted to the ASCII range handled by Char.toLower. -/
def lowerStr (s : String) : String := ⟨s.data.map Char.toLower⟩

/-- The sanitizer of booking_handler.py (also messaging.py): empty input maps
to the empty string, otherwise strip surrounding whitespace and then delete
the banned characters. -/
def sanitize_input (s : String) : String :=
  if s = "" then "" else removeDangerous (pyStrip s)

/-- The DTMF sanitizer of intent_handler.py: empty input maps to the empty
string, otherwise strip and keep only decimal digit characters. -/
def sanitize_digits_input (s : String) : String :=
  if s = "" then "" else ⟨(pyStrip s).data.filter Char.isDigit⟩

/-- The space and hyphen removal applied to the phone field in
capture_user_phone before the pattern test. -/
def stripPhoneSep (s : String) : String :=
  ⟨s.data.filter (fun c => !(c = ' ' || c = '-'))⟩

/-! The E.164-like phone pattern used both by capture_user_phone and by the
GuestInfo pydantic model. -/

/-- A nonzero decimal digit, the first mandatory character of the pattern. -/
def isDigit19 (c : Char) : Bool := '1' ≤ c && c ≤ '9'

/-- Remove one trailing newline, because the dollar anchor of the Python
regular expression also matches just before a single newline at the very
end of the string. -/
def dropTrailingNewline (l : List Char) : List Char :=
  match l.reverse with
  | '\n' :: rest => rest.reverse
  | _ => l

/-- Body of the phone pattern after the optional plus sign: an ASCII digit
1-9 followed by between one and fourteen characters of the digit class ud.
The class matched by the backslash-d escape of the pattern is the set of
Unicode decimal digits of the host regex engine, which depends on its
Unicode tables, so it is passed in as the parameter ud; every such class
contains the ASCII digits. -/
def phoneBody (ud : Char → Bool) : List Char → Bool
  | [] => false
  | c :: rest =>
      isDigit19 c && decide (1 ≤ rest.length) && decide (rest.length ≤ 14)
        && rest.all ud

/-- The phone validation as re.match with the anchored pattern behaves in
Python: an optional leading plus sign, the body over the digit class ud,
and optionally one trailing newline admitted by the dollar anchor. -/
def phoneMatch (ud : Char → Bool) (s : String) : Bool :=
  match dropTrailingNewline s.data with
  | '+' :: rest => phoneBody ud rest
  | l => phoneBody ud l

/-- The phone shape exactly as the spec words it, kept to state the claim
it belongs to: an optional leading plus sign, an ASCII digit 1-9, then one
to fourteen ASCII digits and nothing else. -/
def phonePatternSpec (s : String) : Bool :=
  match s.data with
  | '+' :: rest => phoneBody Char.isDigit rest
  | l => phoneBody Char.isDigit l

/-! Guest validation from agents/receptionist_agent.py. -/

/-- The validated guest record produced by the pydantic GuestInfo model. -/
structure GuestInfo where
  name : String
  email : String
  phone : String
  purpose : String
deriving Repr, DecidableEq

/-- The sanitizer method of ReceptionistAgent: strip then delete the banned
characters, with no special case for the empty string. -/
def agent_sanitize_string (s : String) : String := removeDangerous (pyStrip s)

/-- ReceptionistAgent.validate_input: sanitize every string field, then apply
the GuestInfo field constraints. Validation of the email shape is delegated
to pydantic EmailStr, which lives outside the repository and is passed in as
the parameter emailOk; the phone pattern runs over the digit class ud of
the host regex engine. Returns the validated record or none. -/
def validate_input (emailOk : String → Bool) (ud : Char → Bool)
    (name email phone purpose : String) : Option GuestInfo :=
  let n := agent_sanitize_string name
  let e := agent_sanitize_string email
  let p := agent_sanitize_string phone
  let pu := agent_sanitize_string purpose
  if 2 ≤ n.length ∧ n.length ≤ 100 ∧ emailOk e = true ∧ phoneMatch ud p = true
      ∧ 5 ≤ pu.length ∧ pu.length ≤ 200 then
    some ⟨n, e, p, pu⟩
  else
    none

/-- The placeholder email synthesized in capture_user_address from the stored
name: lowercase, spaces replaced by dots, at example.com. -/
def derivedEmail (name : String) : String :=
  (⟨(lowerStr name).data.map (fun c => if c = ' ' then '.' else c)⟩ : String)
    ++ "@example.com"

/-! The per-call session store: the secure_session_data dictionary of
booking_handler.py, keyed by the sanitized CallSid. -/

/-- One booking session: the five fields accumulated across the dialogue. -/
structure Session where
  doctor : Option String := none
  time_text : Option String := none
  name : Option String := none
  phone : Option String := none
  address : Option String := none
deriving Repr, DecidableEq

/-- The session store is a keyed association of call identifiers to
sessions, modelling the Python dictionary. -/
abbrev Store := List (String × Session)

/-- Dictionary lookup. -/
def storeGet : Store → String → Option Session
  | [], _ => none
  | (k', v') :: rest, k => if k' = k then some v' else storeGet rest k

/-- Dictionary assignment: replace the binding for the key if present,
otherwise append a new binding. -/
def storeSet : Store → String → Session → Store
  | [], k, v => [(k, v)]
  | (k', v') :: rest, k, v =>
      if k' = k then (k, v) :: rest else (k', v') :: storeSet rest k v

/-- Dictionary pop with default: remove every binding for the key. -/
def storeErase (st : Store) (k : String) : Store :=
  st.filter (fun x => x.1 ≠ k)

/-! Webhook turn inputs and handler results. -/

/-- The two form fields each speech step handler reads from the request. -/
structure TurnInput where
  callSid : String
  speechResult : String
deriving Repr, DecidableEq

/-- Where the emitted TwiML sends the next caller input: the gather action
or redirect target chosen by a handler, or the terminal hangup. -/
inductive Route where
  | bookAppointment
  | captureTime
  | captureName
  | capturePhone
  | captureAddress
  | hangup
  | voiceMenu
  | cancelAppointment
  | rescheduleAppointment
  | checkAvailabilityMenu
  | dialHuman
deriving Repr, DecidableEq

/-- Externally visible side effects a handler can trigger. -/
inductive Effect where
  | checkAvailability (doctor time : String)
  | createAppointment (doctor dept name email time : String)
  | sendSms (phone doctor time link : String)
deriving Repr, DecidableEq

/-- Recognize an appointment-creation effect. -/
def isCreateEffect : Effect → Bool
  | .createAppointment _ _ _ _ _ => true
  | _ => false

/-- Number of appointment-creation calls in an effect trace. -/
def countCreates (l : List Effect) : Nat := (l.filter isCreateEffect).length

/-- Result of one handler invocation: the updated store, the route of the
response, and the trace of external side effects. -/
structure HandlerResult where
  store : Store
  route : Route
  effects : List Effect
deriving Repr, DecidableEq

/-! The five booking step handlers of services/booking_handler.py. Each
Python exception path ends in a redirect to the booking entry point, which
the embedding renders as Route.bookAppointment with the store exactly as the
handler left it. -/

/-- Step 1, capture_doctor_name: sanitize CallSid and SpeechResult; missing
values redirect back to the booking entry; otherwise a fresh session holding
only the doctor name is assigned to the call identifier, replacing any
existing binding, and the next gather targets the time step. -/
def capture_doctor_name (st : Store) (i : TurnInput) : HandlerResult :=
  let call_sid := sanitize_input i.callSid
  if call_sid = "" then ⟨st, .bookAppointment, []⟩
  else
    let doctor_name := sanitize_input i.speechResult
    if doctor_name = "" then ⟨st, .bookAppointment, []⟩
    else ⟨storeSet st call_sid { doctor := some doctor_name }, .captureTime, []⟩

/-- Step 2, capture_appointment_time: requires an existing session; commits
the sanitized time text to the session before consulting the availability
oracle; an unavailable slot re-gathers the time step, an available one
advances to the name step. A session without a doctor field hits the
KeyError path after the commit. -/
def capture_appointment_time (oracle : String → String → Bool)
    (st : Store) (i : TurnInput) : HandlerResult :=
  let call_sid := sanitize_input i.callSid
  let time_text := sanitize_input i.speechResult
  match storeGet st call_sid with
  | none => ⟨st, .bookAppointment, []⟩
  | some s0 =>
    if call_sid = "" then ⟨st, .bookAppointment, []⟩
    else if time_text = "" then ⟨st, .bookAppointment, []⟩
    else
      let s1 : Session := { s0 with time_text := some time_text }
      let st1 := storeSet st call_sid s1
      match s1.doctor with
      | none => ⟨st1, .bookAppointment, []⟩
      | some doc =>
        if oracle doc time_text then
          ⟨st1, .captureName, [.checkAvailability doc time_text]⟩
        else
          ⟨st1, .captureTime, [.checkAvailability doc time_text]⟩

/-- Step 3, capture_user_name: requires an existing session; a nonempty
sanitized name is merged into the session and the next gather targets the
phone step. -/
def capture_user_name (st : Store) (i : TurnInput) : HandlerResult :=
  let call_sid := sanitize_input i.callSid
  let name := sanitize_input i.speechResult
  match storeGet st call_sid with
  | none => ⟨st, .bookAppointment, []⟩
  | some s0 =>
    if call_sid = "" then ⟨st, .bookAppointment, []⟩
    else if name = "" then ⟨st, .bookAppointment, []⟩
    else ⟨storeSet st call_sid { s0 with name := some name }, .capturePhone, []⟩

/-- Step 4, capture_user_phone: requires an existing session; the sanitized
input with spaces and hyphens removed must match the anchored phone
pattern over the digit class ud, otherwise nothing is committed; on
success the phone is merged and the next gather targets the address
step. -/
def capture_user_phone (ud : Char → Bool) (st : Store) (i : TurnInput) :
    HandlerResult :=
  let call_sid := sanitize_input i.callSid
  let phone := stripPhoneSep (sanitize_input i.speechResult)
  match storeGet st call_sid with
  | none => ⟨st, .bookAppointment, []⟩
  | some s0 =>
    if call_sid = "" then ⟨st, .bookAppointment, []⟩
    else if phone = "" ∨ phoneMatch ud phone = false then ⟨st, .bookAppointment, []⟩
    else ⟨storeSet st call_sid { s0 with phone := some phone }, .captureAddress, []⟩

/-- Step 5, capture_user_address, the booking finalizer: requires an existing
session; commits the address, reads the four earlier fields (a missing one
hits the KeyError path), validates the derived guest record, creates the
appointment through the parameter create, sends the confirmation through the
parameter sms whose result is ignored, and deletes the session only after a
successful creation. -/
def capture_user_address (emailOk : String → Bool) (ud : Char → Bool)
    (create : String → String → String → String → String → Option String)
    (sms : String → String → String → String → Bool)
    (st : Store) (i : TurnInput) : HandlerResult :=
  let call_sid := sanitize_input i.callSid
  let address := sanitize_input i.speechResult
  match storeGet st call_sid with
  | none => ⟨st, .bookAppointment, []⟩
  | some s0 =>
    if call_sid = "" then ⟨st, .bookAppointment, []⟩
    else if address = "" then ⟨st, .bookAppointment, []⟩
    else
      let s1 : Session := { s0 with address := some address }
      let st1 := storeSet st call_sid s1
      match s0.name, s0.phone, s0.doctor, s0.time_text with
      | some nm, some ph, some doc, some tt =>
        match validate_input emailOk ud nm (derivedEmail nm) ph
            ("Appointment with Dr. " ++ doc ++ " at " ++ tt) with
        | none => ⟨st1, .bookAppointment, []⟩
        | some vg =>
          match create doc "general" nm vg.email tt with
          | none =>
              ⟨st1, .bookAppointment,
                [.createAppointment doc "general" nm vg.email tt]⟩
          | some link =>
              let _ := sms ph doc tt link
              ⟨storeErase st1 call_sid, .hangup,
                [.createAppointment doc "general" nm vg.email tt,
                 .sendSms ph doc tt link]⟩
      | _, _, _, _ => ⟨st1, .bookAppointment, []⟩

/-- The numeric menu dispatch of services/intent_handler.py: both form
fields pass through the digit-only sanitizer; a missing CallSid or empty
digit redirects to the voice menu, digits one to five route to the five
actions, and anything else redirects to the voice menu. The function never
touches the session store. -/
def process_numeric_selection (st : Store) (digits callSid : String) :
    HandlerResult :=
  let digit := sanitize_digits_input digits
  let call_sid := sanitize_digits_input callSid
  if call_sid = "" then ⟨st, .voiceMenu, []⟩
  else if digit = "" then ⟨st, .voiceMenu, []⟩
  else if digit = "1" then ⟨st, .bookAppointment, []⟩
  else if digit = "2" then ⟨st, .cancelAppointment, []⟩
  else if digit = "3" then ⟨st, .rescheduleAppointment, []⟩
  else if digit = "4" then ⟨st, .checkAvailabilityMenu, []⟩
  else if digit = "5" then ⟨st, .dialHuman, []⟩
  else ⟨st, .voiceMenu, []⟩

/-! The availability check of services/calendly.py. -/

/-- The sanitizer of calendly.py: empty input maps to the empty string,
otherwise strip, lowercase, replace spaces by underscores, and delete the
banned characters, in that order. -/
def calendly_sanitize_input (s : String) : String :=
  if s = "" then ""
  else
    removeDangerous
      ⟨((pyStrip s).data.map Char.toLower).map (fun c => if c = ' ' then '_' else c)⟩

/-- Result of parse_datetime: either the raw text accepted by the ISO
parser, or a weekday index and hour extracted from the natural-language
shape. -/
inductive ParsedTime where
  | iso (raw : String)
  | natural (day : Nat) (hour : Nat)
deriving Repr, DecidableEq

/-- The weekday table of parse_datetime. -/
def day_map (s : String) : Option Nat :=
  if s = "monday" then some 0
  else if s = "tuesday" then some 1
  else if s = "wednesday" then some 2
  else if s = "thursday" then some 3
  else if s = "friday" then some 4
  else if s = "saturday" then some 5
  else if s = "sunday" then some 6
  else none

/-- Value of the first maximal run of decimal digits in the list, mirroring
the regex digit search followed by int conversion; none when no digit
occurs, which is the AttributeError path of the source. -/
def firstDigitRun (l : List Char) : Option Nat :=
  let run := (l.dropWhile (fun c => !c.isDigit)).takeWhile Char.isDigit
  if run.isEmpty then none
  else some (run.foldl (fun n c => 10 * n + (c.toNat - 48)) 0)

/-- Substring test on character lists, mirroring the Python in operator. -/
def pyContains : List Char → List Char → Bool
  | [], needle => needle.isEmpty
  | c :: t, needle => needle.isPrefixOf (c :: t) || pyContains t needle

/-- The separator the natural-language branch splits on. -/
def atSep : List Char := [' ', 'a', 't', ' ']

/-- Fuel-indexed splitter on the separator, scanning left to right without
overlap exactly as Python str.split does. -/
def splitAtAux : Nat → List Char → List Char → List (List Char)
  | 0, cur, l => [cur.reverse ++ l]
  | _ + 1, cur, [] => [cur.reverse]
  | n + 1, cur, c :: t =>
      if atSep.isPrefixOf (c :: t) then
        cur.reverse :: splitAtAux n [] (List.drop 4 (c :: t))
      else
        splitAtAux n (c :: cur) t

/-- Split a character list on the separator. -/
def splitOnAt (l : List Char) : List (List Char) :=
  splitAtAux (l.length + 1) [] l

/-- The parse_datetime function of calendly.py. The stdlib ISO parser is an
external collaborator passed in as isoParse; when it rejects, the lowercased
text must split on the separator into exactly two parts (any other shape is
the missing-separator return or the unpacking ValueError), the time part
must contain a digit, a pm marker below twelve adds twelve hours, the
stripped day must be a weekday name, and an hour above twenty-three is the
constructor ValueError. Every failure path yields none. -/
def parse_datetime (isoParse : String → Bool) (time_text : String) :
    Option ParsedTime :=
  if isoParse time_text then some (ParsedTime.iso time_text)
  else
    match splitOnAt (time_text.data.map Char.toLower) with
    | [day, time] =>
      match firstDigitRun time with
      | none => none
      | some h0 =>
        let h := if pyContains time ['p', 'm'] = true ∧ h0 < 12 then h0 + 12 else h0
        match day_map ⟨stripList day⟩ with
        | none => none
        | some d => if h ≤ 23 then some (ParsedTime.natural d h) else none
    | _ => none

/-- One response of the external scheduling API: HTTP status and the list
of already scheduled events in the requested window. -/
structure CalendlyApi where
  status : Nat
  events : List String
deriving Repr, DecidableEq

/-- The is_time_available function of calendly.py. The event-type map
contents are redacted in the source, so the map is a parameter; the network
call is the parameter api, with none standing for a raised request error.
An empty sanitized doctor name, an unparseable time, an empty event map
(the eager default-argument IndexError), a request error, and a non-200
status all return false; a 200 response reports the slot available exactly
when no events exist in the window. -/
def is_time_available (eventMap : List ((String × String) × String))
    (isoParse : String → Bool) (api : Option CalendlyApi)
    (doctor_name time_text : String) : Bool :=
  let d := calendly_sanitize_input doctor_name
  if d = "" then false
  else
    match parse_datetime isoParse time_text with
    | none => false
    | some _ =>
      match eventMap with
      | [] => false
      | _ :: _ =>
        match api with
        | none => false
        | some r => if r.status = 200 then r.events.isEmpty else false

/-! The stateless webhook sequence: one step relation folding arbitrary
turn callbacks over the store, used to state reachability invariants. -/

/-- The external collaborators the handlers depend on, including the
Unicode decimal-digit class ud of the host regex engine. -/
structure Collab where
  oracle : String → String → Bool
  emailOk : String → Bool
  ud : Char → Bool
  create : String → String → String → String → String → Option String
  sms : String → String → String → String → Bool

/-- One webhook callback: which endpoint fires and with which form fields. -/
inductive Callback where
  | doctor (i : TurnInput)
  | time (i : TurnInput)
  | name (i : TurnInput)
  | phone (i : TurnInput)
  | address (i : TurnInput)
  | menu (digits callSid : String)
deriving Repr, DecidableEq

/-- Store transformation of one callback. -/
def stepCallback (cb : Collab) (st : Store) : Callback → Store
  | .doctor i => (capture_doctor_name st i).store
  | .time i => (capture_appointment_time cb.oracle st i).store
  | .name i => (capture_user_name st i).store
  | .phone i => (capture_user_phone cb.ud st i).store
  | .address i => (capture_user_address cb.emailOk cb.ud cb.create cb.sms st i).store
  | .menu d c => (process_numeric_selection st d c).store

/-- Store after a whole sequence of callbacks. -/
def runCallbacks (cb : Collab) (st : Store) : List Callback → Store
  | [] => st
  | c :: rest => runCallbacks cb (stepCallback cb st c) rest

/-! Basic store lemmas. -/

theorem storeGet_storeSet_self (st : Store) (k : String) (v : Session) :
    storeGet (storeSet st k v) k = some v := by
  induction st with
  | nil => simp [storeSet, storeGet]
  | cons hd tl ih =>
    obtain ⟨k', v'⟩ := hd
    by_cases h : k' = k
    · simp [storeSet, storeGet, h]
    · simp [storeSet, storeGet, h, ih]

theorem storeGet_eq_none_of_keys_ne (st : Store) (k : String)
    (h : ∀ x ∈ st, x.1 ≠ k) : storeGet st k = none := by
  induction st with
  | nil => simp [storeGet]
  | cons hd tl ih =>
    obtain ⟨k', v'⟩ := hd
    have hk : k' ≠ k := h (k', v') (List.mem_cons_self _ _)
    simp only [storeGet, if_neg hk]
    exact ih fun x hx => h x (List.mem_cons_of_mem _ hx)

theorem storeGet_storeErase_self (st : Store) (k : String) :
    storeGet (storeErase st k) k = none := by
  refine storeGet_eq_none_of_keys_ne _ _ fun x hx => ?_
  have := List.of_mem_filter hx
  simpa using this

theorem mem_storeSet (st : Store) (k : String) (v : Session)
    (x : String × Session) (hx : x ∈ storeSet st k v) : x = (k, v) ∨ x ∈ st := by
  induction st with
  | nil => simpa [storeSet] using hx
  | cons hd tl ih =>
    obtain ⟨k', v'⟩ := hd
    by_cases h : k' = k
    · simp only [storeSet, if_pos h, List.mem_cons] at hx
      rcases hx with hx | hx
      · exact Or.inl hx
      · exact Or.inr (List.mem_cons_of_mem _ hx)
    · simp only [storeSet, if_neg h, List.mem_cons] at hx
      rcases hx with hx | hx
      · exact Or.inr (by simp [hx])
      · rcases ih hx with hx | hx
        · exact Or.inl hx
        · exact Or.inr (List.mem_cons_of_mem _ hx)

theorem mem_storeErase (st : Store) (k : String)
    (x : String × Session) (hx : x ∈ storeErase st k) : x ∈ st :=
  List.mem_of_mem_filter hx

theorem storeGet_mem (st : Store) (k : String) (s : Session)
    (h : storeGet st k = some s) : (k, s) ∈ st := by
  induction st with
  | nil => simp [storeGet] at h
  | cons hd tl ih =>
    obtain ⟨k', v'⟩ := hd
    by_cases hk : k' = k
    · simp only [storeGet, if_pos hk] at h
      subst hk
      obtain rfl : v' = s := Option.some.inj h
      exact List.mem_cons_self _ _
    · simp only [storeGet, if_neg hk] at h
      exact List.mem_cons_of_mem _ (ih h)

/-! The reachability invariant: every session in a store reached from the
empty store has its doctor field set, and any phone field it carries
matches the anchored phone pattern over the digit class the handlers
validated with. -/

/-- The per-session part of the reachability invariant. -/
def SessionOK (ud : Char → Bool) (s : Session) : Prop :=
  s.doctor ≠ none ∧ ∀ p, s.phone = some p → phoneMatch ud p = true

/-- Store-wide invariant. -/
def StoreOK (ud : Char → Bool) (st : Store) : Prop := ∀ x ∈ st, SessionOK ud x.2

theorem storeOK_nil (ud : Char → Bool) : StoreOK ud ([] : Store) := by
  intro x hx
  simp at hx

theorem StoreOK.set {ud : Char → Bool} {st : Store} {k : String} {v : Session}
    (h : StoreOK ud st) (hv : SessionOK ud v) : StoreOK ud (storeSet st k v) := by
  intro x hx
  rcases mem_storeSet st k v x hx with rfl | hx
  · exact hv
  · exact h x hx

theorem StoreOK.erase {ud : Char → Bool} {st : Store} (h : StoreOK ud st)
    (k : String) : StoreOK ud (storeErase st k) :=
  fun x hx => h x (mem_storeErase st k x hx)

/-! Preservation of the invariant by every handler. -/


theorem storeOK_doctor (ud : Char → Bool) (st : Store) (i : TurnInput)
    (h : StoreOK ud st) :
    StoreOK ud (capture_doctor_name st i).store := by
  unfold capture_doctor_name
  dsimp only
  split
  · exact h
  · split
    · exact h
    · refine h.set ⟨by simp, ?_⟩
      intro p hp
      simp at hp

theorem storeOK_time (ud : Char → Bool) (oracle : String → String → Bool)
    (st : Store) (i : TurnInput) (h : StoreOK ud st) :
    StoreOK ud (capture_appointment_time oracle st i).store := by
  unfold capture_appointment_time
  dsimp only
  split
  · exact h
  · rename_i s0 heq
    have hs0 : SessionOK ud s0 := h _ (storeGet_mem _ _ _ heq)
    split
    · exact h
    · split
      · exact h
      · have hok : SessionOK ud { s0 with time_text := some (sanitize_input i.speechResult) } :=
          ⟨hs0.1, hs0.2⟩
        split
        · exact h.set hok
        · split
          · exact h.set hok
          · exact h.set hok



theorem storeOK_name (ud : Char → Bool) (st : Store) (i : TurnInput)
    (h : StoreOK ud st) :
    StoreOK ud (capture_user_name st i).store := by
  unfold capture_user_name
  dsimp only
  split
  · exact h
  · rename_i s0 heq
    have hs0 : SessionOK ud s0 := h _ (storeGet_mem _ _ _ heq)
    split
    · exact h
    · split
      · exact h
      · exact h.set ⟨hs0.1, hs0.2⟩

theorem storeOK_phone (ud : Char → Bool) (st : Store) (i : TurnInput)
    (h : StoreOK ud st) :
    StoreOK ud (capture_user_phone ud st i).store := by
  unfold capture_user_phone
  dsimp only
  split
  · exact h
  · rename_i s0 heq
    have hs0 : SessionOK ud s0 := h _ (storeGet_mem _ _ _ heq)
    split
    · exact h
    · split
      · exact h
      · rename_i hguard
        push_neg at hguard
        refine h.set ⟨hs0.1, ?_⟩
        intro p hp
        obtain rfl : stripPhoneSep (sanitize_input i.speechResult) = p :=
          Option.some.inj hp
        simpa using hguard.2

theorem storeOK_address (emailOk : String → Bool) (ud : Char → Bool)
    (create : String → String → String → String → String → Option String)
    (sms : String → String → String → String → Bool)
    (st : Store) (i : TurnInput) (h : StoreOK ud st) :
    StoreOK ud (capture_user_address emailOk ud create sms st i).store := by
  unfold capture_user_address
  dsimp only
  split
  · exact h
  · rename_i s0 heq
    have hs0 : SessionOK ud s0 := h _ (storeGet_mem _ _ _ heq)
    have hok : SessionOK ud { s0 with address := some (sanitize_input i.speechResult) } :=
      ⟨hs0.1, hs0.2⟩
    split
    · exact h
    · split
      · exact h
      · split
        · split
          · exact h.set hok
          · split
            · exact h.set hok
            · exact (h.set hok).erase _
        · exact h.set hok

theorem storeOK_menu (ud : Char → Bool) (st : Store) (d c : String)
    (h : StoreOK ud st) :
    StoreOK ud (process_numeric_selection st d c).store := by
  unfold process_numeric_selection
  dsimp only
  repeat' split
  all_goals exact h

theorem storeOK_step (cb : Collab) (st : Store) (c : Callback)
    (h : StoreOK cb.ud st) :
    StoreOK cb.ud (stepCallback cb st c) := by
  cases c with
  | doctor i => exact storeOK_doctor cb.ud st i h
  | time i => exact storeOK_time cb.ud cb.oracle st i h
  | name i => exact storeOK_name cb.ud st i h
  | phone i => exact storeOK_phone cb.ud st i h
  | address i => exact storeOK_address cb.emailOk cb.ud cb.create cb.sms st i h
  | menu d c => exact storeOK_menu cb.ud st d c h

theorem storeOK_run (cb : Collab) (st : Store) (cbs : List Callback)
    (h : StoreOK cb.ud st) : StoreOK cb.ud (runCallbacks cb st cbs) := by
  induction cbs generalizing st with
  | nil => exact h
  | cons c rest ih => exact ih _ (storeOK_step cb st c h)

/-! Inversion helpers for the finalizer. -/

/-- A finalize turn whose call identifier has no session leaves the store
untouched, redirects to the booking entry, and triggers nothing. -/
theorem address_absent (emailOk : String → Bool) (ud : Char → Bool)
    (create : String → String → String → String → String → Option String)
    (sms : String → String → String → String → Bool)
    (st : Store) (i : TurnInput)
    (h : storeGet st (sanitize_input i.callSid) = none) :
    capture_user_address emailOk ud create sms st i = ⟨st, .bookAppointment, []⟩ := by
  unfold capture_user_address
  dsimp only
  rw [h]

/-- Complete case analysis of a finalize turn: either the response is the
error redirect to the booking entry, or the turn found a fully populated
session, validation and creation succeeded, and the result is exactly the
session deletion, the hangup, and the creation plus notification effects. -/
theorem address_result_cases (emailOk : String → Bool) (ud : Char → Bool)
    (create : String → String → String → String → String → Option String)
    (sms : String → String → String → String → Bool)
    (st : Store) (i : TurnInput) :
    (capture_user_address emailOk ud create sms st i).route = Route.bookAppointment ∨
    (∃ s0 nm ph doc tt vg link,
      storeGet st (sanitize_input i.callSid) = some s0 ∧
      s0.name = some nm ∧ s0.phone = some ph ∧ s0.doctor = some doc ∧
      s0.time_text = some tt ∧
      validate_input emailOk ud nm (derivedEmail nm) ph
        ("Appointment with Dr. " ++ doc ++ " at " ++ tt) = some vg ∧
      create doc "general" nm vg.email tt = some link ∧
      capture_user_address emailOk ud create sms st i =
        ⟨storeErase
            (storeSet st (sanitize_input i.callSid)
              { s0 with address := some (sanitize_input i.speechResult) })
            (sanitize_input i.callSid),
          Route.hangup,
          [Effect.createAppointment doc "general" nm vg.email tt,
           Effect.sendSms ph doc tt link]⟩) := by
  unfold capture_user_address
  dsimp only
  split
  · exact Or.inl rfl
  · rename_i s0 heq
    split
    · exact Or.inl rfl
    · split
      · exact Or.inl rfl
      · split
        · rename_i nm ph doc tt hnm hph hdoc htt
          split
          · exact Or.inl rfl
          · rename_i vg hvg
            split
            · exact Or.inl rfl
            · rename_i link hlink
              exact Or.inr ⟨s0, nm, ph, doc, tt, vg, link, heq, hnm, hph, hdoc, htt,
                hvg, hlink, rfl⟩
        · exact Or.inl rfl

/-! List helpers for the sanitizer contract. -/

/-- Stripping surrounding whitespace only removes characters. -/
theorem mem_stripList (l : List Char) (c : Char) (h : c ∈ stripList l) : c ∈ l := by
  unfold stripList at h
  rw [List.mem_reverse] at h
  have h1 := (List.dropWhile_sublist (p := isPyWs)).subset h
  rw [List.mem_reverse] at h1
  exact (List.dropWhile_sublist (p := isPyWs)).subset h1

/-- Filtering commutes with dropping a disjoint prefix. -/
theorem filter_dropWhile_of_imp (p q : Char → Bool) (l : List Char)
    (h : ∀ c, q c = true → p c = false) :
    (l.dropWhile q).filter p = l.filter p := by
  induction l with
  | nil => rfl
  | cons c t ih =>
    by_cases hq : q c = true
    · simp [List.dropWhile_cons, hq, List.filter_cons, h c hq, ih]
    · simp [List.dropWhile_cons, hq]

/-- No Python whitespace character is a decimal digit. -/
theorem pyWs_not_digit (c : Char) (h : isPyWs c = true) : c.isDigit = false := by
  simp only [isPyWs, Bool.or_eq_true, decide_eq_true_eq] at h
  rcases h with ((((h | h) | h) | h) | h) | h <;> subst h <;> decide

/-- Keeping only digits is insensitive to whitespace stripping. -/
theorem filter_digit_stripList (l : List Char) :
    (stripList l).filter Char.isDigit = l.filter Char.isDigit := by
  unfold stripList
  rw [List.filter_reverse, filter_dropWhile_of_imp _ _ _ pyWs_not_digit,
    List.filter_reverse, filter_dropWhile_of_imp _ _ _ pyWs_not_digit,
    List.reverse_reverse]

/-- The empty string never matches the phone pattern, whatever the digit
class. -/
theorem phoneMatch_empty_ne (ud : Char → Bool) : ¬ phoneMatch ud "" = true := by
  intro h
  exact Bool.noConfusion h

/-! Claim C1. -/

/-- Claim C1 counterexample: with doctor Smith stored and the oracle
reporting Monday at 2 PM unavailable, the handler does commit a field: the
rejected time text is written into the session before the availability
check runs, so the session store is not left unchanged as the claim
requires. -/
theorem C1_counterexample :
    (capture_appointment_time (fun _ _ => false)
        (storeSet [] "CA1" { doctor := some "Smith" })
        ⟨"CA1", "Monday at 2 PM"⟩).store
      ≠ storeSet [] "CA1" { doctor := some "Smith" } ∧
    storeGet (capture_appointment_time (fun _ _ => false)
        (storeSet [] "CA1" { doctor := some "Smith" })
        ⟨"CA1", "Monday at 2 PM"⟩).store "CA1"
      = some { doctor := some "Smith", time_text := some "Monday at 2 PM" } := by
  decide

/-- Claim C1 as amended: when an existing session holds a doctor and the
oracle reports the nonempty sanitized time unavailable, the state machine
re-enters AwaitingTime (the response gathers the time step again, not the
name step) and the session keeps its stored doctor; however the rejected
time text is committed to the session, having been written before the
availability check. -/
theorem C1_time_unavailable_reenters_awaiting_time
    (oracle : String → String → Bool) (st : Store) (i : TurnInput)
    (s : Session) (d t : String)
    (hsid : sanitize_input i.callSid ≠ "")
    (hget : storeGet st (sanitize_input i.callSid) = some s)
    (hd : s.doctor = some d)
    (ht : sanitize_input i.speechResult = t) (htne : t ≠ "")
    (hor : oracle d t = false) :
    (capture_appointment_time oracle st i).route = Route.captureTime ∧
    (capture_appointment_time oracle st i).route ≠ Route.captureName ∧
    storeGet (capture_appointment_time oracle st i).store
        (sanitize_input i.callSid) = some { s with time_text := some t } ∧
    ({ s with time_text := some t } : Session).doctor = some d := by
  subst ht
  unfold capture_appointment_time
  dsimp only
  rw [hget]
  try dsimp only
  rw [if_neg hsid, if_neg htne]
  try dsimp only
  rw [hd]
  try dsimp only
  rw [if_neg (by simp [hor])]
  refine ⟨rfl, ?_, storeGet_storeSet_self _ _ _, rfl⟩
  intro h
  exact Route.noConfusion h

/-- Witness for the amended claim C1 at the concrete scenario of the spec:
doctor Smith stored, Monday at 2 PM reported unavailable. -/
theorem C1_witness :
    (capture_appointment_time (fun _ _ => false)
        (storeSet [] "CA1" { doctor := some "Smith" })
        ⟨"CA1", "Monday at 2 PM"⟩).route = Route.captureTime ∧
    (capture_appointment_time (fun _ _ => false)
        (storeSet [] "CA1" { doctor := some "Smith" })
        ⟨"CA1", "Monday at 2 PM"⟩).route ≠ Route.captureName ∧
    storeGet (capture_appointment_time (fun _ _ => false)
        (storeSet [] "CA1" { doctor := some "Smith" })
        ⟨"CA1", "Monday at 2 PM"⟩).store (sanitize_input "CA1")
      = some { doctor := some "Smith", time_text := some "Monday at 2 PM" } ∧
    ({ doctor := some "Smith", time_text := some "Monday at 2 PM" } : Session).doctor
      = some "Smith" :=
  C1_time_unavailable_reenters_awaiting_time (fun _ _ => false)
    (storeSet [] "CA1" { doctor := some "Smith" }) ⟨"CA1", "Monday at 2 PM"⟩
    { doctor := some "Smith" } "Smith" "Monday at 2 PM"
    (by decide) (by decide) (by decide) (by decide) (by decide) (by decide)

/-! Claim C2. -/

/-- Claim C2 counterexample: the out-of-order sequence doctor step then name
step produces a session whose name is set while time_text is absent, so the
fields are not populated only in the fixed order the claim states. The name
handler only checks that a session exists, not that the earlier fields are
present. -/
theorem C2_counterexample :
    storeGet ((capture_user_name
        (capture_doctor_name [] ⟨"CA1", "Smith"⟩).store ⟨"CA1", "Jane Doe"⟩).store) "CA1"
      = some ⟨some "Smith", none, some "Jane Doe", none, none⟩ ∧
    (⟨some "Smith", none, some "Jane Doe", none, none⟩ : Session).name ≠ none ∧
    (⟨some "Smith", none, some "Jane Doe", none, none⟩ : Session).time_text = none := by
  decide

/-- Claim C2 as amended: under every sequence of turn callbacks from the
empty store, every stored session has its doctor field set (the first field
always precedes the rest, because only the doctor step creates sessions);
the stronger fixed-order property for the later fields fails for
out-of-order callbacks, as the counterexample shows. -/
theorem C2_doctor_field_always_first (cb : Collab) (cbs : List Callback)
    (k : String) (s : Session)
    (h : storeGet (runCallbacks cb [] cbs) k = some s) : s.doctor ≠ none :=
  ((storeOK_run cb [] cbs (storeOK_nil cb.ud)) _ (storeGet_mem _ _ _ h)).1

/-- Witness for the amended claim C2 after a single doctor callback. -/
theorem C2_witness :
    ((⟨some "Smith", none, none, none, none⟩ : Session)).doctor ≠ none :=
  C2_doctor_field_always_first
    ⟨fun _ _ => true, fun _ => true, Char.isDigit, fun _ _ _ _ _ => none,
      fun _ _ _ _ => false⟩
    [Callback.doctor ⟨"CA1", "Smith"⟩] "CA1" _ (by decide)

/-! Claim C3. -/

/-- Claim C3: a successful finalize turn performs exactly one
appointment-creation call and deletes the session, so invoking the terminal
step a second time with the same call identifier finds no session and
performs no further appointment-creation call. -/
theorem C3_at_most_once_appointment_creation (emailOk : String → Bool)
    (ud : Char → Bool)
    (create : String → String → String → String → String → Option String)
    (sms : String → String → String → String → Bool)
    (st : Store) (i : TurnInput)
    (h : (capture_user_address emailOk ud create sms st i).route = Route.hangup) :
    countCreates (capture_user_address emailOk ud create sms st i).effects = 1 ∧
    countCreates (capture_user_address emailOk ud create sms
        (capture_user_address emailOk ud create sms st i).store i).effects = 0 := by
  rcases address_result_cases emailOk ud create sms st i with hc |
    ⟨s0, nm, ph, doc, tt, vg, link, hget, hnm, hph, hdoc, htt, hvg, hlink, heq⟩
  · exact absurd (h.symm.trans hc) (by decide)
  · constructor
    · rw [heq]
      rfl
    · have hstore : storeGet (capture_user_address emailOk ud create sms st i).store
          (sanitize_input i.callSid) = none := by
        rw [heq]
        exact storeGet_storeErase_self _ _
      rw [address_absent emailOk ud create sms _ i hstore]
      rfl

/-- Witness for claim C3 on a complete session finalized twice. -/
theorem C3_witness :
    countCreates (capture_user_address (fun _ => true) Char.isDigit
        (fun _ _ _ _ _ => some "https.link") (fun _ _ _ _ => true)
        (storeSet [] "CA1" { doctor := some "Patel", time_text := some "Monday at 2 PM",
                             name := some "Jane Doe", phone := some "+15551234567" })
        ⟨"CA1", "1 Main St"⟩).effects = 1 ∧
    countCreates (capture_user_address (fun _ => true) Char.isDigit
        (fun _ _ _ _ _ => some "https.link") (fun _ _ _ _ => true)
        (capture_user_address (fun _ => true) Char.isDigit
          (fun _ _ _ _ _ => some "https.link") (fun _ _ _ _ => true)
          (storeSet [] "CA1" { doctor := some "Patel", time_text := some "Monday at 2 PM",
                               name := some "Jane Doe", phone := some "+15551234567" })
          ⟨"CA1", "1 Main St"⟩).store
        ⟨"CA1", "1 Main St"⟩).effects = 0 :=
  C3_at_most_once_appointment_creation (fun _ => true) Char.isDigit
    (fun _ _ _ _ _ => some "https.link") (fun _ _ _ _ => true)
    (storeSet [] "CA1" { doctor := some "Patel", time_text := some "Monday at 2 PM",
                         name := some "Jane Doe", phone := some "+15551234567" })
    ⟨"CA1", "1 Main St"⟩ (by decide)

/-! Claim C4. -/

/-- Claim C4: once a finalize turn reaches the creation call, a failed
creation leaves the session in the store (with the address committed) so a
later lookup still finds it, while a successful creation deletes the
session regardless of what the notification sender returns, since its
result is ignored. -/
theorem C4_creation_failure_keeps_session (emailOk : String → Bool)
    (ud : Char → Bool)
    (create : String → String → String → String → String → Option String)
    (sms : String → String → String → String → Bool)
    (st : Store) (i : TurnInput) (s : Session) (nm ph doc tt : String) (vg : GuestInfo)
    (hsid : sanitize_input i.callSid ≠ "")
    (hget : storeGet st (sanitize_input i.callSid) = some s)
    (haddr : sanitize_input i.speechResult ≠ "")
    (hnm : s.name = some nm) (hph : s.phone = some ph)
    (hdoc : s.doctor = some doc) (htt : s.time_text = some tt)
    (hv : validate_input emailOk ud nm (derivedEmail nm) ph
        ("Appointment with Dr. " ++ doc ++ " at " ++ tt) = some vg) :
    (create doc "general" nm vg.email tt = none →
      storeGet (capture_user_address emailOk ud create sms st i).store
          (sanitize_input i.callSid)
        = some { s with address := some (sanitize_input i.speechResult) }) ∧
    (∀ link, create doc "general" nm vg.email tt = some link →
      storeGet (capture_user_address emailOk ud create sms st i).store
          (sanitize_input i.callSid) = none) := by
  unfold capture_user_address
  dsimp only
  rw [hget]
  try dsimp only
  rw [if_neg hsid, if_neg haddr, hnm, hph, hdoc, htt]
  try dsimp only
  rw [hv]
  try dsimp only
  constructor
  · intro hc
    rw [hc]
    try dsimp only
    exact storeGet_storeSet_self _ _ _
  · intro link hc
    rw [hc]
    try dsimp only
    exact storeGet_storeErase_self _ _

/-- Witness for claim C4: a failing creation retains the session, and a
successful creation deletes it even though the notification sender returns
failure. -/
theorem C4_witness :
    storeGet (capture_user_address (fun _ => true) Char.isDigit
        (fun _ _ _ _ _ => none) (fun _ _ _ _ => true)
        (storeSet [] "CA1" { doctor := some "Patel", time_text := some "Monday at 2 PM",
                             name := some "Jane Doe", phone := some "+15551234567" })
        ⟨"CA1", "1 Main St"⟩).store (sanitize_input "CA1")
      = some { doctor := some "Patel", time_text := some "Monday at 2 PM",
               name := some "Jane Doe", phone := some "+15551234567",
               address := some "1 Main St" } ∧
    storeGet (capture_user_address (fun _ => true) Char.isDigit
        (fun _ _ _ _ _ => some "https.link") (fun _ _ _ _ => false)
        (storeSet [] "CA1" { doctor := some "Patel", time_text := some "Monday at 2 PM",
                             name := some "Jane Doe", phone := some "+15551234567" })
        ⟨"CA1", "1 Main St"⟩).store (sanitize_input "CA1") = none :=
  ⟨(C4_creation_failure_keeps_session (fun _ => true) Char.isDigit
      (fun _ _ _ _ _ => none) (fun _ _ _ _ => true)
      (storeSet [] "CA1" { doctor := some "Patel", time_text := some "Monday at 2 PM",
                           name := some "Jane Doe", phone := some "+15551234567" })
      ⟨"CA1", "1 Main St"⟩
      { doctor := some "Patel", time_text := some "Monday at 2 PM",
        name := some "Jane Doe", phone := some "+15551234567" }
      "Jane Doe" "+15551234567" "Patel" "Monday at 2 PM"
      ⟨"Jane Doe", "jane.doe@example.com", "+15551234567",
        "Appointment with Dr. Patel at Monday at 2 PM"⟩
      (by decide) (by decide) (by decide) (by decide) (by decide) (by decide) (by decide)
      (by decide)).1 rfl,
   (C4_creation_failure_keeps_session (fun _ => true) Char.isDigit
      (fun _ _ _ _ _ => some "https.link") (fun _ _ _ _ => false)
      (storeSet [] "CA1" { doctor := some "Patel", time_text := some "Monday at 2 PM",
                           name := some "Jane Doe", phone := some "+15551234567" })
      ⟨"CA1", "1 Main St"⟩
      { doctor := some "Patel", time_text := some "Monday at 2 PM",
        name := some "Jane Doe", phone := some "+15551234567" }
      "Jane Doe" "+15551234567" "Patel" "Monday at 2 PM"
      ⟨"Jane Doe", "jane.doe@example.com", "+15551234567",
        "Appointment with Dr. Patel at Monday at 2 PM"⟩
      (by decide) (by decide) (by decide) (by decide) (by decide) (by decide) (by decide)
      (by decide)).2 "https.link" rfl⟩

/-! Claim C5. -/

/-- Claim C5 counterexample: a repeated step-1 doctor input for an
identifier whose session already holds a doctor and a time binds the
identifier to a fresh session holding only the new doctor; the previously
stored time_text is discarded, contradicting the merge the claim states. -/
theorem C5_counterexample :
    storeGet (capture_doctor_name
        (storeSet [] "CA1" { doctor := some "Smith", time_text := some "Monday at 2 PM" })
        ⟨"CA1", "Jones"⟩).store "CA1"
      = some ⟨some "Jones", none, none, none, none⟩ ∧
    (⟨some "Jones", none, none, none, none⟩ : Session).time_text = none := by
  decide

/-- Claim C5 as amended: the step-2, step-3 and step-4 handlers merge their
single field into the existing session, preserving every already-set
field; the step-5 handler merges the address the same way and leaves the
merged session in the store except exactly when finalization succeeds, in
which case it deletes the whole session; none of the step-2 through step-5
handlers creates a session when none exists for the identifier; the step-1
handler does not merge: it always binds the identifier to a fresh session
holding only the doctor, replacing rather than updating an existing
session. -/
theorem C5_merge_except_first_step (oracle : String → String → Bool)
    (emailOk : String → Bool) (ud : Char → Bool)
    (create : String → String → String → String → String → Option String)
    (sms : String → String → String → String → Bool)
    (st : Store) (i : TurnInput)
    (hsid : sanitize_input i.callSid ≠ "")
    (hval : sanitize_input i.speechResult ≠ "") :
    ((capture_doctor_name st i).store
      = storeSet st (sanitize_input i.callSid)
          { doctor := some (sanitize_input i.speechResult) }) ∧
    (∀ s, storeGet st (sanitize_input i.callSid) = some s →
      (capture_appointment_time oracle st i).store
        = storeSet st (sanitize_input i.callSid)
            { s with time_text := some (sanitize_input i.speechResult) }) ∧
    (∀ s, storeGet st (sanitize_input i.callSid) = some s →
      (capture_user_name st i).store
        = storeSet st (sanitize_input i.callSid)
            { s with name := some (sanitize_input i.speechResult) }) ∧
    (∀ s, storeGet st (sanitize_input i.callSid) = some s →
      phoneMatch ud (stripPhoneSep (sanitize_input i.speechResult)) = true →
      (capture_user_phone ud st i).store
        = storeSet st (sanitize_input i.callSid)
            { s with phone := some (stripPhoneSep (sanitize_input i.speechResult)) }) ∧
    (∀ s, storeGet st (sanitize_input i.callSid) = some s →
      ((capture_user_address emailOk ud create sms st i).store
          = storeSet st (sanitize_input i.callSid)
              { s with address := some (sanitize_input i.speechResult) } ∨
       ((capture_user_address emailOk ud create sms st i).route = Route.hangup ∧
        (capture_user_address emailOk ud create sms st i).store
          = storeErase
              (storeSet st (sanitize_input i.callSid)
                { s with address := some (sanitize_input i.speechResult) })
              (sanitize_input i.callSid)))) ∧
    (storeGet st (sanitize_input i.callSid) = none →
      (capture_appointment_time oracle st i).store = st ∧
      (capture_user_name st i).store = st ∧
      (capture_user_phone ud st i).store = st ∧
      (capture_user_address emailOk ud create sms st i).store = st) := by
  refine ⟨?_, ?_, ?_, ?_, ?_, ?_⟩
  · unfold capture_doctor_name
    dsimp only
    rw [if_neg hsid, if_neg hval]
  · intro s hget
    unfold capture_appointment_time
    dsimp only
    rw [hget]
    try dsimp only
    rw [if_neg hsid, if_neg hval]
    try dsimp only
    split
    · rfl
    · split <;> rfl
  · intro s hget
    unfold capture_user_name
    dsimp only
    rw [hget]
    try dsimp only
    rw [if_neg hsid, if_neg hval]
  · intro s hget hm
    unfold capture_user_phone
    dsimp only
    rw [hget]
    try dsimp only
    rw [if_neg hsid]
    rw [if_neg ?hguard]
    case hguard =>
      rintro (h0 | h0)
      · rw [h0] at hm
        exact absurd hm (phoneMatch_empty_ne ud)
      · rw [hm] at h0
        exact Bool.noConfusion h0
  · intro s hget
    unfold capture_user_address
    dsimp only
    rw [hget]
    try dsimp only
    rw [if_neg hsid, if_neg hval]
    try dsimp only
    split
    · split
      · exact Or.inl rfl
      · split
        · exact Or.inl rfl
        · exact Or.inr ⟨rfl, rfl⟩
    · exact Or.inl rfl
  · intro hget
    refine ⟨?_, ?_, ?_, ?_⟩
    · unfold capture_appointment_time
      dsimp only
      rw [hget]
    · unfold capture_user_name
      dsimp only
      rw [hget]
    · unfold capture_user_phone
      dsimp only
      rw [hget]
    · unfold capture_user_address
      dsimp only
      rw [hget]

/-- Witness for the amended claim C5 at a store already holding a doctor
and a time for the identifier. -/
theorem C5_witness :
    ((capture_doctor_name
        [("CA1", { doctor := some "Smith", time_text := some "Monday at 2 PM" })]
        ⟨"CA1", "Jones"⟩).store
      = storeSet [("CA1", { doctor := some "Smith", time_text := some "Monday at 2 PM" })]
          (sanitize_input "CA1") { doctor := some (sanitize_input "Jones") }) ∧
    (∀ s, storeGet [("CA1", { doctor := some "Smith", time_text := some "Monday at 2 PM" })]
        (sanitize_input "CA1") = some s →
      (capture_appointment_time (fun _ _ => true)
          [("CA1", { doctor := some "Smith", time_text := some "Monday at 2 PM" })]
          ⟨"CA1", "Jones"⟩).store
        = storeSet [("CA1", { doctor := some "Smith", time_text := some "Monday at 2 PM" })]
            (sanitize_input "CA1") { s with time_text := some (sanitize_input "Jones") }) ∧
    (∀ s, storeGet [("CA1", { doctor := some "Smith", time_text := some "Monday at 2 PM" })]
        (sanitize_input "CA1") = some s →
      (capture_user_name
          [("CA1", { doctor := some "Smith", time_text := some "Monday at 2 PM" })]
          ⟨"CA1", "Jones"⟩).store
        = storeSet [("CA1", { doctor := some "Smith", time_text := some "Monday at 2 PM" })]
            (sanitize_input "CA1") { s with name := some (sanitize_input "Jones") }) ∧
    (∀ s, storeGet [("CA1", { doctor := some "Smith", time_text := some "Monday at 2 PM" })]
        (sanitize_input "CA1") = some s →
      phoneMatch Char.isDigit (stripPhoneSep (sanitize_input "Jones")) = true →
      (capture_user_phone Char.isDigit
          [("CA1", { doctor := some "Smith", time_text := some "Monday at 2 PM" })]
          ⟨"CA1", "Jones"⟩).store
        = storeSet [("CA1", { doctor := some "Smith", time_text := some "Monday at 2 PM" })]
            (sanitize_input "CA1")
            { s with phone := some (stripPhoneSep (sanitize_input "Jones")) }) ∧
    (∀ s, storeGet [("CA1", { doctor := some "Smith", time_text := some "Monday at 2 PM" })]
        (sanitize_input "CA1") = some s →
      ((capture_user_address (fun _ => true) Char.isDigit (fun _ _ _ _ _ => none)
            (fun _ _ _ _ => true)
            [("CA1", { doctor := some "Smith", time_text := some "Monday at 2 PM" })]
            ⟨"CA1", "Jones"⟩).store
          = storeSet [("CA1", { doctor := some "Smith", time_text := some "Monday at 2 PM" })]
              (sanitize_input "CA1") { s with address := some (sanitize_input "Jones") } ∨
       ((capture_user_address (fun _ => true) Char.isDigit (fun _ _ _ _ _ => none)
            (fun _ _ _ _ => true)
            [("CA1", { doctor := some "Smith", time_text := some "Monday at 2 PM" })]
            ⟨"CA1", "Jones"⟩).route = Route.hangup ∧
        (capture_user_address (fun _ => true) Char.isDigit (fun _ _ _ _ _ => none)
            (fun _ _ _ _ => true)
            [("CA1", { doctor := some "Smith", time_text := some "Monday at 2 PM" })]
            ⟨"CA1", "Jones"⟩).store
          = storeErase
              (storeSet [("CA1", { doctor := some "Smith", time_text := some "Monday at 2 PM" })]
                (sanitize_input "CA1")
                { s with address := some (sanitize_input "Jones") })
              (sanitize_input "CA1")))) ∧
    (storeGet [("CA1", { doctor := some "Smith", time_text := some "Monday at 2 PM" })]
        (sanitize_input "CA1") = none →
      (capture_appointment_time (fun _ _ => true)
          [("CA1", { doctor := some "Smith", time_text := some "Monday at 2 PM" })]
          ⟨"CA1", "Jones"⟩).store
        = [("CA1", { doctor := some "Smith", time_text := some "Monday at 2 PM" })] ∧
      (capture_user_name
          [("CA1", { doctor := some "Smith", time_text := some "Monday at 2 PM" })]
          ⟨"CA1", "Jones"⟩).store
        = [("CA1", { doctor := some "Smith", time_text := some "Monday at 2 PM" })] ∧
      (capture_user_phone Char.isDigit
          [("CA1", { doctor := some "Smith", time_text := some "Monday at 2 PM" })]
          ⟨"CA1", "Jones"⟩).store
        = [("CA1", { doctor := some "Smith", time_text := some "Monday at 2 PM" })] ∧
      (capture_user_address (fun _ => true) Char.isDigit (fun _ _ _ _ _ => none)
          (fun _ _ _ _ => true)
          [("CA1", { doctor := some "Smith", time_text := some "Monday at 2 PM" })]
          ⟨"CA1", "Jones"⟩).store
        = [("CA1", { doctor := some "Smith", time_text := some "Monday at 2 PM" })]) :=
  C5_merge_except_first_step (fun _ _ => true) (fun _ => true) Char.isDigit
    (fun _ _ _ _ _ => none) (fun _ _ _ _ => true)
    [("CA1", { doctor := some "Smith", time_text := some "Monday at 2 PM" })]
    ⟨"CA1", "Jones"⟩ (by decide) (by decide)


/-! Claim C6. -/

/-- Claim C6 counterexample: the dollar anchor of the Python pattern also
matches just before one trailing newline, so from SpeechResult with the
newline shielded by angle brackets the handler commits the phone value
consisting of plus, one, two, three, four and a newline; that value does
not have the strict shape the claim states (optional plus, digit 1-9, then
only digits), yet the session completes, because the finalizer strips the
newline before re-validating. -/
theorem C6_counterexample :
    storeGet (capture_user_phone Char.isDigit
        (storeSet [] "CA1" { doctor := some "Patel", time_text := some "Monday at 2 PM",
                             name := some "Jane Doe" })
        ⟨"CA1", "<+1234\n>"⟩).store "CA1"
      = some { doctor := some "Patel", time_text := some "Monday at 2 PM",
               name := some "Jane Doe", phone := some "+1234\n" } ∧
    phonePatternSpec "+1234\n" = false ∧
    (capture_user_address (fun _ => true) Char.isDigit
        (fun _ _ _ _ _ => some "https.link") (fun _ _ _ _ => true)
        (capture_user_phone Char.isDigit
          (storeSet [] "CA1" { doctor := some "Patel", time_text := some "Monday at 2 PM",
                               name := some "Jane Doe" })
          ⟨"CA1", "<+1234\n>"⟩).store
        ⟨"CA1", "1 Main St"⟩).route = Route.hangup := by
  decide

/-- Claim C6 as amended: the phone field is committed only if the sanitized
input with spaces and hyphens removed matches the pattern as Python
evaluates it — optional leading plus, an ASCII digit 1-9, then one to
fourteen characters of the regex engine decimal-digit class, optionally
followed by one trailing newline admitted by the dollar anchor — and every
session reachable from the empty store that completes holds a phone value
matching that weaker pattern; the strict all-ASCII-digits-only shape the
claim states does not hold of committed or completed phones. -/
theorem C6_phone_pattern_gate (cb : Collab) (cbs : List Callback)
    (i : TurnInput) (st : Store) :
    (phoneMatch cb.ud (stripPhoneSep (sanitize_input i.speechResult)) = false →
      (capture_user_phone cb.ud st i).store = st) ∧
    ((capture_user_address cb.emailOk cb.ud cb.create cb.sms
        (runCallbacks cb [] cbs) i).route = Route.hangup →
      ∃ s p, storeGet (runCallbacks cb [] cbs) (sanitize_input i.callSid) = some s ∧
        s.phone = some p ∧ phoneMatch cb.ud p = true) := by
  constructor
  · intro hm
    unfold capture_user_phone
    dsimp only
    split
    · rfl
    · split
      · rfl
      · split
        · rfl
        · rename_i hguard
          exact absurd (Or.inr hm) hguard
  · intro h
    rcases address_result_cases cb.emailOk cb.ud cb.create cb.sms
        (runCallbacks cb [] cbs) i
      with hc | ⟨s0, nm, ph, doc, tt, vg, link, hget, hnm, hph, hdoc, htt, hvg, hlink, heq⟩
    · exact absurd (h.symm.trans hc) (by decide)
    · have hsOK : SessionOK cb.ud s0 :=
        (storeOK_run cb [] cbs (storeOK_nil cb.ud)) _ (storeGet_mem _ _ _ hget)
      exact ⟨s0, ph, hget, hph, hsOK.2 ph hph⟩

/-- Witness for the amended claim C6: the phone handler rejects a
non-matching input on the empty store, and a full dialogue whose phone turn
carries the trailing-newline value reaches completion with that stored
phone matching the Python-evaluated pattern. -/
theorem C6_witness :
    (capture_user_phone Char.isDigit [] ⟨"CA1", "abc"⟩).store = [] ∧
    (∃ s p, storeGet (runCallbacks
        ⟨fun _ _ => true, fun _ => true, Char.isDigit,
          fun _ _ _ _ _ => some "https.link", fun _ _ _ _ => true⟩ []
        [Callback.doctor ⟨"CA1", "Patel"⟩, Callback.time ⟨"CA1", "Monday at 2 PM"⟩,
         Callback.name ⟨"CA1", "Jane Doe"⟩, Callback.phone ⟨"CA1", "<+1234\n>"⟩])
        (sanitize_input "CA1") = some s ∧ s.phone = some p ∧
        phoneMatch Char.isDigit p = true) :=
  ⟨(C6_phone_pattern_gate
      ⟨fun _ _ => true, fun _ => true, Char.isDigit,
        fun _ _ _ _ _ => some "https.link", fun _ _ _ _ => true⟩ []
      ⟨"CA1", "abc"⟩ []).1 (by decide),
   (C6_phone_pattern_gate
      ⟨fun _ _ => true, fun _ => true, Char.isDigit,
        fun _ _ _ _ _ => some "https.link", fun _ _ _ _ => true⟩
      [Callback.doctor ⟨"CA1", "Patel"⟩, Callback.time ⟨"CA1", "Monday at 2 PM"⟩,
       Callback.name ⟨"CA1", "Jane Doe"⟩, Callback.phone ⟨"CA1", "<+1234\n>"⟩]
      ⟨"CA1", "1 Main St"⟩ []).2 (by decide)⟩


/-! Claim C7. -/

/-- Claim C7: when the derived guest record fails schema validation, the
finalize attempt aborts on the error route and its effect trace is empty,
so neither the appointment-creation call nor the confirmation notification
is made. -/
theorem C7_validation_failure_no_external_calls (emailOk : String → Bool)
    (ud : Char → Bool)
    (create : String → String → String → String → String → Option String)
    (sms : String → String → String → String → Bool)
    (st : Store) (i : TurnInput) (s : Session) (nm ph doc tt : String)
    (hsid : sanitize_input i.callSid ≠ "")
    (hget : storeGet st (sanitize_input i.callSid) = some s)
    (haddr : sanitize_input i.speechResult ≠ "")
    (hnm : s.name = some nm) (hph : s.phone = some ph)
    (hdoc : s.doctor = some doc) (htt : s.time_text = some tt)
    (hv : validate_input emailOk ud nm (derivedEmail nm) ph
        ("Appointment with Dr. " ++ doc ++ " at " ++ tt) = none) :
    (capture_user_address emailOk ud create sms st i).effects = [] ∧
    (capture_user_address emailOk ud create sms st i).route = Route.bookAppointment := by
  unfold capture_user_address
  dsimp only
  rw [hget]
  try dsimp only
  rw [if_neg hsid, if_neg haddr, hnm, hph, hdoc, htt]
  try dsimp only
  rw [hv]
  exact ⟨rfl, rfl⟩

/-- Witness for claim C7 with an email validator that rejects, making the
guest record validation fail on a complete session. -/
theorem C7_witness :
    (capture_user_address (fun _ => false) Char.isDigit
        (fun _ _ _ _ _ => some "https.link") (fun _ _ _ _ => true)
        (storeSet [] "CA1" { doctor := some "Patel", time_text := some "Monday at 2 PM",
                             name := some "Jane Doe", phone := some "+15551234567" })
        ⟨"CA1", "1 Main St"⟩).effects = [] ∧
    (capture_user_address (fun _ => false) Char.isDigit
        (fun _ _ _ _ _ => some "https.link") (fun _ _ _ _ => true)
        (storeSet [] "CA1" { doctor := some "Patel", time_text := some "Monday at 2 PM",
                             name := some "Jane Doe", phone := some "+15551234567" })
        ⟨"CA1", "1 Main St"⟩).route = Route.bookAppointment :=
  C7_validation_failure_no_external_calls (fun _ => false) Char.isDigit
    (fun _ _ _ _ _ => some "https.link") (fun _ _ _ _ => true)
    (storeSet [] "CA1" { doctor := some "Patel", time_text := some "Monday at 2 PM",
                         name := some "Jane Doe", phone := some "+15551234567" })
    ⟨"CA1", "1 Main St"⟩
    { doctor := some "Patel", time_text := some "Monday at 2 PM",
      name := some "Jane Doe", phone := some "+15551234567" }
    "Jane Doe" "+15551234567" "Patel" "Monday at 2 PM"
    (by decide) (by decide) (by decide) (by decide) (by decide) (by decide) (by decide)
    (by decide)

/-! Claim C8. -/

/-- Claim C8: the numeric menu dispatch never changes the session store for
any input; with a call identifier present, digit five routes to human
escalation, an empty digit routes back to the top-level menu, and every
digit outside one to five routes back to the top-level menu. -/
theorem C8_menu_dispatch_frame (st : Store) (digits callSid : String) :
    (process_numeric_selection st digits callSid).store = st ∧
    (sanitize_digits_input callSid ≠ "" →
      ((sanitize_digits_input digits = "5" →
          (process_numeric_selection st digits callSid).route = Route.dialHuman) ∧
       (sanitize_digits_input digits = "" →
          (process_numeric_selection st digits callSid).route = Route.voiceMenu) ∧
       (sanitize_digits_input digits ≠ "1" ∧ sanitize_digits_input digits ≠ "2" ∧
          sanitize_digits_input digits ≠ "3" ∧ sanitize_digits_input digits ≠ "4" ∧
          sanitize_digits_input digits ≠ "5" →
          (process_numeric_selection st digits callSid).route = Route.voiceMenu))) := by
  constructor
  · unfold process_numeric_selection
    dsimp only
    repeat' split
    all_goals rfl
  · intro hc
    refine ⟨?_, ?_, ?_⟩
    · intro h5
      unfold process_numeric_selection
      dsimp only
      rw [if_neg hc, h5]
      simp
    · intro h0
      unfold process_numeric_selection
      dsimp only
      rw [if_neg hc, h0]
      simp
    · rintro ⟨h1, h2, h3, h4, h5⟩
      unfold process_numeric_selection
      dsimp only
      rw [if_neg hc]
      by_cases h0 : sanitize_digits_input digits = ""
      · rw [if_pos h0]
      · rw [if_neg h0, if_neg h1, if_neg h2, if_neg h3, if_neg h4, if_neg h5]

/-- Witness for claim C8 at digit five, digit nine, and an empty digit. -/
theorem C8_witness :
    (process_numeric_selection [] "5" "CA123").route = Route.dialHuman ∧
    (process_numeric_selection [] "9" "CA123").route = Route.voiceMenu ∧
    (process_numeric_selection [] "" "CA123").route = Route.voiceMenu ∧
    (process_numeric_selection [] "9" "CA123").store = [] ∧
    (process_numeric_selection [] "5" "CA123").store = [] :=
  ⟨((C8_menu_dispatch_frame [] "5" "CA123").2 (by decide)).1 (by decide),
   ((C8_menu_dispatch_frame [] "9" "CA123").2 (by decide)).2.2
     (by refine ⟨?_, ?_, ?_, ?_, ?_⟩ <;> decide),
   ((C8_menu_dispatch_frame [] "" "CA123").2 (by decide)).2.1 (by decide),
   (C8_menu_dispatch_frame [] "9" "CA123").1,
   (C8_menu_dispatch_frame [] "5" "CA123").1⟩

/-! Claim C9. -/

/-- Claim C9 counterexample: the sanitizer trims before removing the
markup characters, so removing a bracket can re-expose surrounding
whitespace; on the shown input the returned string still has surrounding
whitespace, contradicting the trimmed-output reading of the claim. -/
theorem C9_counterexample :
    sanitize_input "< a >" = " a " ∧ pyStrip " a " ≠ " a " := by
  decide

/-- Claim C9 as amended: the sanitizer output never contains one of the
five removed characters; when the input contains none of them the output
is exactly the whitespace-trimmed input (the trim happens first, so
whitespace shielded by a removed character can survive at the edges); the
numeric variant returns exactly the digit characters of the input; both
are total functions and the empty input maps to the empty output. -/
theorem C9_sanitizer_contract (s : String) :
    ((sanitize_input s).data.all (fun c => !(isBanned c)) = true) ∧
    ((∀ c ∈ s.data, isBanned c = false) → sanitize_input s = pyStrip s) ∧
    ((sanitize_digits_input s).data = s.data.filter Char.isDigit) ∧
    sanitize_input "" = "" ∧ sanitize_digits_input "" = "" := by
  refine ⟨?_, ?_, ?_, by decide, by decide⟩
  · by_cases h : s = ""
    · subst h
      decide
    · simp only [sanitize_input, if_neg h, removeDangerous]
      rw [List.all_eq_true]
      intro c hc
      simpa using (List.mem_filter.mp hc).2
  · intro hb
    by_cases h : s = ""
    · subst h
      decide
    · simp only [sanitize_input, if_neg h, removeDangerous]
      have hfix : (pyStrip s).data.filter (fun c => !(isBanned c)) = (pyStrip s).data := by
        rw [List.filter_eq_self]
        intro c hc
        have hbc : isBanned c = false := hb c (mem_stripList s.data c hc)
        simp [hbc]
      rw [hfix]
  · by_cases h : s = ""
    · subst h
      decide
    · simp only [sanitize_digits_input, if_neg h]
      exact filter_digit_stripList s.data

/-- Witness for the amended claim C9 on concrete inputs with and without
removed characters. -/
theorem C9_witness :
    sanitize_input " ab 1 " = pyStrip " ab 1 " ∧
    (sanitize_digits_input " a1b2 ").data = (" a1b2 ".data.filter Char.isDigit) ∧
    ((sanitize_input " x<y> ").data.all (fun c => !(isBanned c)) = true) :=
  ⟨(C9_sanitizer_contract " ab 1 ").2.1 (by decide),
   (C9_sanitizer_contract " a1b2 ").2.2.1,
   (C9_sanitizer_contract " x<y> ").1⟩

/-! Claim C10. -/

/-- Claim C10: the availability check is total and returns false rather
than raising on every failure path: an empty or fully removed doctor name,
a time text that neither the ISO parser nor the natural-language branch
accepts, the empty event-type map (whose eagerly evaluated default raises
inside the guarded block), a raised network request, and a non-200 response
all yield false, so the AwaitingTime step treats such input as an
unavailable slot. -/
theorem C10_availability_false_on_failures
    (em : List ((String × String) × String)) (ip : String → Bool)
    (api : Option CalendlyApi) (d t : String) :
    (calendly_sanitize_input d = "" → is_time_available em ip api d t = false) ∧
    (parse_datetime ip t = none → is_time_available em ip api d t = false) ∧
    (em = [] → is_time_available em ip api d t = false) ∧
    (api = none → is_time_available em ip api d t = false) ∧
    (∀ r, api = some r → r.status ≠ 200 → is_time_available em ip api d t = false) := by
  refine ⟨?_, ?_, ?_, ?_, ?_⟩
  · intro h
    unfold is_time_available
    dsimp only
    rw [if_pos h]
  · intro h
    unfold is_time_available
    dsimp only
    split
    · rfl
    · rw [h]
  · intro h
    subst h
    unfold is_time_available
    dsimp only
    split
    · rfl
    · split
      · rfl
      · rfl
  · intro h
    subst h
    unfold is_time_available
    dsimp only
    split
    · rfl
    · split
      · rfl
      · split
        · rfl
        · rfl
  · intro r hr hs
    subst hr
    unfold is_time_available
    dsimp only
    repeat' split
    all_goals simp_all

/-- Witness for claim C10 at an empty doctor name, an unparseable time, an
empty event map and a missing response at once. -/
theorem C10_witness :
    is_time_available [] (fun _ => false) none "" "hello" = false :=
  (C10_availability_false_on_failures [] (fun _ => false) none "" "hello").1 (by decide)

end TelemedAI
